import Mathlib

/-!
# Verification of the Spotifytrack CSV-mode ingestion core and tooling

Shallow embedding of the pre-computation engine described by the repository
documentation (the Rust `backend/src/csv_loader.rs` is not part of the
source tree here, so the engine is modelled from the specification), plus
embeddings of the committed JavaScript converter scripts
(`scripts/csv-to-json.js`, `scripts/xlsx-to-json.js`) and of the TypeScript
WASM client shim (`frontend/src/musicGalaxy/WasmClient`).
-/

namespace Spotifytrack

/-- Modelled from the spec: a raw input row as exposed by the out-of-scope
row-parsing collaborator (spec §6).  The ISO-8601 timestamp parse performed
by that collaborator is abstracted to an `Option Nat` (`none` means the
timestamp field failed to parse); `ms_played` arrives as an integer that may
be negative; genres arrive already split into a list of strings. -/
structure RawRow where
  ts : Option Nat
  track_name : String
  artist_name : String
  ms_played : Int
  genres : List String
deriving DecidableEq

/-- Modelled from the spec (§3 ListeningEvent): immutable record created
once per valid input row. -/
structure ListeningEvent where
  timestamp : Nat
  artist_id : String
  track_id : String
  ms_played : Nat
  genres : List String
deriving DecidableEq

/-- Name sanitization for id derivation, per `CSV_MODE_IMPLEMENTATION.md`
("spaces to underscores, lowercase"). -/
def sanitizeName (s : String) : String :=
  s.map (fun c => if c = ' ' then '_' else c.toLower)

/-- Id derivation, per `CSV_MODE_IMPLEMENTATION.md` ("Use csv_<sanitized_name>
format for IDs"): a pure function of the display name, hence order-independent. -/
def deriveId (name : String) : String :=
  "csv_" ++ sanitizeName name

/-- Modelled from the spec (§4.2, §6, missing `csv_loader.rs`): a row whose
timestamp failed to parse or whose `ms_played` is negative is rejected
(`none`); otherwise it becomes a `ListeningEvent` with ids derived from the
names. -/
def parseRow (r : RawRow) : Option ListeningEvent :=
  match r.ts with
  | none => none
  | some t =>
      if r.ms_played < 0 then none
      else some
        { timestamp := t
          artist_id := deriveId r.artist_name
          track_id := deriveId r.track_name
          ms_played := r.ms_played.toNat
          genres := r.genres }

/-- The events surviving row parsing, in input order. -/
def validEvents (rows : List RawRow) : List ListeningEvent :=
  rows.filterMap parseRow

/-- Number of per-row warnings: one per rejected row (spec §7: per-row
errors are aggregated into a load report). -/
def parseWarnings (rows : List RawRow) : Nat :=
  rows.countP (fun r => (parseRow r).isNone)

/-- Ordering of events by timestamp, used for the post-ingestion sort
(spec §4.2: ascending by timestamp, stable on ties by input order). -/
def tsLe (e f : ListeningEvent) : Prop :=
  e.timestamp ≤ f.timestamp

instance : DecidableRel tsLe := fun e f => Nat.decLe e.timestamp f.timestamp

instance : IsTotal ListeningEvent tsLe := ⟨fun e f => Nat.le_total e.timestamp f.timestamp⟩

instance : IsTrans ListeningEvent tsLe := ⟨fun _ _ _ h h' => Nat.le_trans h h'⟩

/-- Modelled from the spec (§4.2 Event Index): the sealed event list, sorted
ascending by timestamp with a stable sort (insertion sort keeps input order
on ties). -/
def sortEvents (evs : List ListeningEvent) : List ListeningEvent :=
  evs.insertionSort tsLe

/-! ## Ranking engine (spec §3 RankingList, §4.3) -/

/-- The three rolling horizons (spec §3). -/
inductive Horizon where
  | short
  | medium
  | long
deriving DecidableEq

/-- Entity kinds handled by the engine. -/
inductive EntityKind where
  | artist
  | track
deriving DecidableEq

/-- Ordering on entity kinds used by the timeline tie-break
(spec §4.6: artist before track). -/
def kindRank : EntityKind → Nat
  | .artist => 0
  | .track => 1

/-- Latest event timestamp in the index (spec §3: horizons are measured
relative to it, not to wall-clock time). -/
def latestTimestamp (evs : List ListeningEvent) : Nat :=
  (evs.map ListeningEvent.timestamp).foldr max 0

/-- Seconds in one day; timestamps are modelled as UTC seconds. -/
def daySeconds : Nat := 86400

/-- Modelled from the spec (§4.3): inclusive lower bound of a horizon
relative to the latest timestamp (28 days, 180 days, or unbounded).
Truncated subtraction makes the bound 0 when the history is shorter than
the horizon. -/
def horizonLowerBound (latest : Nat) : Horizon → Nat
  | .short => latest - 28 * daySeconds
  | .medium => latest - 180 * daySeconds
  | .long => 0

/-- Key function selecting the entity id of an event for a kind. -/
def entityKey : EntityKind → ListeningEvent → String
  | .artist, e => e.artist_id
  | .track, e => e.track_id

/-- Total `ms_played` accumulated for one entity id over an event list. -/
def scoreOf (key : ListeningEvent → String) (evs : List ListeningEvent) (i : String) : Nat :=
  ((evs.filter (fun e => key e = i)).map ListeningEvent.ms_played).sum

/-- Modelled from the spec (§4.3): accumulate `ms_played` per entity id over
the horizon-filtered events; one entry per distinct id. -/
def scoreTable (key : ListeningEvent → String) (evs : List ListeningEvent) :
    List (String × Nat) :=
  ((evs.map key).dedup).map (fun i => (i, scoreOf key evs i))

/-- Ranking order (spec §3): descending score, ties broken by ascending
entity id.  Entries are `(entity_id, score)` pairs. -/
def rankRel (a b : String × Nat) : Prop :=
  b.2 < a.2 ∨ (a.2 = b.2 ∧ a.1 ≤ b.1)

instance : DecidableRel rankRel := fun a b =>
  inferInstanceAs (Decidable (b.2 < a.2 ∨ (a.2 = b.2 ∧ a.1 ≤ b.1)))

instance : IsTotal (String × Nat) rankRel := by
  constructor
  intro a b
  rcases Nat.lt_trichotomy a.2 b.2 with h | h | h
  · exact Or.inr (Or.inl h)
  · rcases le_total a.1 b.1 with h' | h'
    · exact Or.inl (Or.inr ⟨h, h'⟩)
    · exact Or.inr (Or.inr ⟨h.symm, h'⟩)
  · exact Or.inl (Or.inl h)

instance : IsTrans (String × Nat) rankRel := by
  constructor
  intro a b c hab hbc
  rcases hab with h | ⟨he, hi⟩
  · rcases hbc with h' | ⟨he', _⟩
    · exact Or.inl (h'.trans h)
    · exact Or.inl (he' ▸ h)
  · rcases hbc with h' | ⟨he', hi'⟩
    · exact Or.inl (he ▸ h')
    · exact Or.inr ⟨he.trans he', hi.trans hi'⟩

/-- The fixed ranking-list cap N (spec §3: "length capped at a fixed N
(e.g., 50)"; `CSV_MODE_IMPLEMENTATION.md`: top 50). -/
def rankingCap : Nat := 50

/-- Modelled from the spec (§4.3): filter events to the horizon, accumulate
per entity, sort descending by score with ascending-id tie-break, truncate
to the cap. -/
def rankingList (key : ListeningEvent → String) (evs : List ListeningEvent)
    (lb : Nat) : List (String × Nat) :=
  ((scoreTable key (evs.filter (fun e => lb ≤ e.timestamp))).insertionSort rankRel).take
    rankingCap

/-! ## Relationship graph builder (spec §3 RelationshipEdge, §4.4) -/

/-- A relationship graph: association list from canonical artist-id pairs to
accumulated weights. -/
abbrev Graph (α : Type) := List ((α × α) × Nat)

variable {α : Type} [LinearOrder α]

/-- Canonical form of an unordered pair (spec §3: `artist_id_a < artist_id_b`). -/
def canonPair (a b : α) : α × α :=
  if a < b then (a, b) else (b, a)

/-- Increment the weight of a key in the graph, inserting it with weight 1
when absent. -/
def bumpEdge : Graph α → α × α → Graph α
  | [], k => [(k, 1)]
  | (k', w) :: t, k => if k' = k then (k', w + 1) :: t else (k', w) :: bumpEdge t k

/-- The sliding-window capacity W (spec §4.4, `CSV_MODE_IMPLEMENTATION.md`:
50-song window). -/
def windowCap : Nat := 50

/-- Push an artist id into the window, evicting the oldest entry when the
capacity is exceeded (spec §4.4 step 2). -/
def windowPush (w : List α) (a : α) : List α :=
  let w' := w ++ [a]
  if windowCap < w'.length then w'.tail else w'

/-- Modelled from the spec (§4.4 step 1, disambiguated by the §8 scenario
"60 plays cycling A,B,A,B produce weight 59"): for each distinct artist `b`
currently in the window with `b ≠ a`, the canonical pair `(min(a,b), max(a,b))`
is incremented once; then `a` is pushed into the window. -/
def graphStep (gw : Graph α × List α) (a : α) : Graph α × List α :=
  (((gw.2.dedup).filter (fun b => b ≠ a)).foldl (fun g b => bumpEdge g (canonPair a b)) gw.1,
   windowPush gw.2 a)

/-- The sliding-window graph builder over a sequence of artist ids in
ascending timestamp order (spec §4.4). -/
def buildGraphIds (ids : List α) : Graph α :=
  (ids.foldl graphStep ([], [])).1

/-- Weight lookup for a key in the graph (0 when absent). -/
def edgeWeight : Graph α → α × α → Nat
  | [], _ => 0
  | (k', w) :: t, k => if k' = k then w else edgeWeight t k

/-- Weight of the unordered pair of two artists: lookup of the canonical key. -/
def weightOf (g : Graph α) (a b : α) : Nat :=
  edgeWeight g (canonPair a b)

/-- The relationship graph of the event index: the builder run over the
artist ids of the (sorted) events. -/
def buildGraph (evs : List ListeningEvent) : Graph String :=
  buildGraphIds (evs.map ListeningEvent.artist_id)

/-! ## Genre history aggregator (spec §3 GenreHistoryPoint, §4.5) -/

/-- Modelled from the spec (§4.5): calendar-month bucketing of a timestamp,
abstracted as a deterministic pure function of the timestamp (30-day
buckets over UTC seconds stand in for (year, month) extraction). -/
def monthBucket (ts : Nat) : Nat :=
  ts / (30 * daySeconds)

/-- Total `ms_played` a genre accumulated over an event list (spec §4.5:
counters are weighted by `ms_played`, not event count). -/
def genreWeight (evs : List ListeningEvent) (g : String) : Nat :=
  ((evs.filter (fun e => g ∈ e.genres)).map ListeningEvent.ms_played).sum

/-- Genre weights of one month bucket, sorted by descending weight with
ascending-genre tie-break (spec §4.5: exposed already sorted). -/
def bucketGenres (evs : List ListeningEvent) (m : Nat) : List (String × Nat) :=
  let inBucket := evs.filter (fun e => monthBucket e.timestamp = m)
  (((inBucket.flatMap ListeningEvent.genres).dedup).map
    (fun g => (g, genreWeight inBucket g))).insertionSort rankRel

/-- Modelled from the spec (§4.5): one point per populated month bucket, in
order of first appearance in the sorted event list (ascending
chronologically once events are sorted). -/
def genreHistory (evs : List ListeningEvent) : List (Nat × List (String × Nat)) :=
  ((evs.map (fun e => monthBucket e.timestamp)).dedup).map
    (fun m => (m, bucketGenres evs m))

/-! ## Timeline builder (spec §3 TimelineEvent, §4.6) -/

/-- Earliest timestamp among the events referencing an entity id
(spec §3 first_seen). -/
def firstSeen (key : ListeningEvent → String) (evs : List ListeningEvent)
    (i : String) : Nat :=
  (((evs.filter (fun e => key e = i)).map ListeningEvent.timestamp).foldr min (latestTimestamp evs))

/-- Timeline ordering (spec §4.6): ascending timestamp, ties broken by
entity kind (artist before track) then ascending id. -/
def timelineRel (a b : Nat × EntityKind × String) : Prop :=
  a.1 < b.1 ∨ (a.1 = b.1 ∧ (kindRank a.2.1 < kindRank b.2.1 ∨
    (a.2.1 = b.2.1 ∧ a.2.2 ≤ b.2.2)))

instance : DecidableRel timelineRel := fun a b =>
  inferInstanceAs (Decidable (a.1 < b.1 ∨ (a.1 = b.1 ∧ (kindRank a.2.1 < kindRank b.2.1 ∨
    (a.2.1 = b.2.1 ∧ a.2.2 ≤ b.2.2)))))

/-- Modelled from the spec (§4.6): one timeline event per unique artist and
track at its first-seen timestamp, merged and sorted. -/
def timeline (evs : List ListeningEvent) : List (Nat × EntityKind × String) :=
  let artistEntries := ((evs.map ListeningEvent.artist_id).dedup).map
    (fun i => (firstSeen (fun e => e.artist_id) evs i, (EntityKind.artist, i)))
  let trackEntries := ((evs.map ListeningEvent.track_id).dedup).map
    (fun i => (firstSeen (fun e => e.track_id) evs i, (EntityKind.track, i)))
  (artistEntries ++ trackEntries).insertionSort timelineRel

/-! ## Snapshot assembly (spec §3 Snapshot, §2 control flow) -/

/-- Modelled from the spec (§3 Snapshot, `CSV_MODE_IMPLEMENTATION.md`
CsvData): the immutable aggregate of every derived view of one ingestion
pass. -/
structure Snapshot where
  events : List ListeningEvent
  topArtistsShort : List (String × Nat)
  topArtistsMedium : List (String × Nat)
  topArtistsLong : List (String × Nat)
  topTracksShort : List (String × Nat)
  topTracksMedium : List (String × Nat)
  topTracksLong : List (String × Nat)
  artistRelationships : Graph String
  history : List (Nat × List (String × Nat))
  timelineEvents : List (Nat × EntityKind × String)
deriving DecidableEq

/-- All derived views computed from the sealed (sorted) event index
(spec §2 control flow: the four aggregation passes read only the sorted
Event Index). -/
def snapshotOfEvents (evs : List ListeningEvent) : Snapshot :=
  let latest := latestTimestamp evs
  { events := evs
    topArtistsShort := rankingList (fun e => e.artist_id) evs (horizonLowerBound latest .short)
    topArtistsMedium := rankingList (fun e => e.artist_id) evs (horizonLowerBound latest .medium)
    topArtistsLong := rankingList (fun e => e.artist_id) evs (horizonLowerBound latest .long)
    topTracksShort := rankingList (fun e => e.track_id) evs (horizonLowerBound latest .short)
    topTracksMedium := rankingList (fun e => e.track_id) evs (horizonLowerBound latest .medium)
    topTracksLong := rankingList (fun e => e.track_id) evs (horizonLowerBound latest .long)
    artistRelationships := buildGraph evs
    history := genreHistory evs
    timelineEvents := timeline evs }

/-- The full ingestion pipeline: parse rows, sort the surviving events,
compute every derived view (spec §2 control flow). -/
def buildSnapshot (rows : List RawRow) : Snapshot :=
  snapshotOfEvents (sortEvents (validEvents rows))

/-- Selector for the six ranking lists of a snapshot. -/
def getRanking (s : Snapshot) : EntityKind → Horizon → List (String × Nat)
  | .artist, .short => s.topArtistsShort
  | .artist, .medium => s.topArtistsMedium
  | .artist, .long => s.topArtistsLong
  | .track, .short => s.topTracksShort
  | .track, .medium => s.topTracksMedium
  | .track, .long => s.topTracksLong

/-! ## Order-independence of ingestion (spec §8, claim C1 machinery) -/

theorem sortEvents_sorted (evs : List ListeningEvent) :
    (sortEvents evs).Sorted tsLe :=
  List.sorted_insertionSort tsLe evs

theorem sortEvents_perm (evs : List ListeningEvent) :
    (sortEvents evs).Perm evs :=
  List.perm_insertionSort tsLe evs

/-- Two sorted event lists that are permutations of each other and have no
duplicated timestamp are equal: with distinct timestamps the sorted order
is unique, so the stable tie-break never fires. -/
theorem eq_of_perm_sorted_nodup_ts :
    ∀ {l₁ l₂ : List ListeningEvent}, l₁.Perm l₂ → l₁.Sorted tsLe → l₂.Sorted tsLe →
      (l₁.map ListeningEvent.timestamp).Nodup → l₁ = l₂ := by
  intro l₁
  induction l₁ with
  | nil =>
    intro l₂ hp _ _ _
    exact hp.nil_eq
  | cons a t ih =>
    intro l₂ hp hs₁ hs₂ hn
    cases l₂ with
    | nil => exact absurd hp.symm.nil_eq (by simp)
    | cons b t₂ =>
      have hab : a = b := by
        by_contra hne
        have ha₂ : a ∈ t₂ := by
          have := hp.subset (List.mem_cons_self a t)
          simpa [hne] using this
        have hb₁ : b ∈ t := by
          have := hp.symm.subset (List.mem_cons_self b t₂)
          simpa [Ne.symm hne] using this
        have h₁ : a.timestamp ≤ b.timestamp :=
          List.rel_of_sorted_cons hs₁ b hb₁
        have h₂ : b.timestamp ≤ a.timestamp :=
          List.rel_of_sorted_cons hs₂ a ha₂
        have hts : b.timestamp = a.timestamp := Nat.le_antisymm h₂ h₁
        have : a.timestamp ∉ t.map ListeningEvent.timestamp :=
          (List.nodup_cons.mp hn).1
        exact this (hts ▸ List.mem_map_of_mem ListeningEvent.timestamp hb₁)
      subst hab
      have ht : t = t₂ :=
        ih (hp.cons_inv) hs₁.of_cons hs₂.of_cons (List.nodup_cons.mp hn).2
      rw [ht]

/-- Sorting two permuted event lists with pairwise-distinct timestamps
yields the same sealed Event Index. -/
theorem sortEvents_eq_of_perm {evs₁ evs₂ : List ListeningEvent}
    (hp : evs₁.Perm evs₂)
    (hn : (evs₁.map ListeningEvent.timestamp).Nodup) :
    sortEvents evs₁ = sortEvents evs₂ := by
  have hperm : (sortEvents evs₁).Perm (sortEvents evs₂) :=
    ((sortEvents_perm evs₁).trans hp).trans (sortEvents_perm evs₂).symm
  have hmap : ((sortEvents evs₁).map ListeningEvent.timestamp).Perm
      (evs₁.map ListeningEvent.timestamp) :=
    (sortEvents_perm evs₁).map ListeningEvent.timestamp
  exact eq_of_perm_sorted_nodup_ts hperm (sortEvents_sorted evs₁)
    (sortEvents_sorted evs₂) (hmap.nodup_iff.mpr hn)

/-- Claim C1.
Ingestion is order-independent: permuting the input rows of a valid input
(one in which the documented stable-sort tie-break never fires because no
two surviving events share a timestamp) yields an identical Snapshot —
ranking lists, relationship graph, genre history and timeline all equal.
The only ordering sensitivity is the documented deterministic tie-break on
equal timestamps. -/
theorem ingestion_order_independent (rows rows' : List RawRow)
    (hperm : rows.Perm rows')
    (hts : ((validEvents rows).map ListeningEvent.timestamp).Nodup) :
    buildSnapshot rows = buildSnapshot rows' := by
  have hv : (validEvents rows).Perm (validEvents rows') := hperm.filterMap parseRow
  unfold buildSnapshot
  rw [sortEvents_eq_of_perm hv hts]

/-- Witness for claim C1 at a concrete input: two rows ingested in either
order produce the same Snapshot. -/
theorem ingestion_order_independent_witness :
    buildSnapshot
        [⟨some 100, "T1", "A1", 1000, ["rock"]⟩, ⟨some 200, "T2", "A2", 2000, []⟩] =
      buildSnapshot
        [⟨some 200, "T2", "A2", 2000, []⟩, ⟨some 100, "T1", "A1", 1000, ["rock"]⟩] :=
  ingestion_order_independent _ _ (by decide) (by decide)

/-! ## Ranking-list invariants (spec §3, §8; claim C2 machinery) -/

/-- Strict ranking order between two distinct entries: strictly smaller
score, or equal score and strictly smaller entity id. -/
def strictRankRel (a b : String × Nat) : Prop :=
  b.2 < a.2 ∨ (a.2 = b.2 ∧ a.1 < b.1)

theorem scoreTable_map_fst (key : ListeningEvent → String) (evs : List ListeningEvent) :
    (scoreTable key evs).map Prod.fst = (evs.map key).dedup := by
  unfold scoreTable
  rw [List.map_map]
  have hcomp : (Prod.fst ∘ fun i : String => (i, scoreOf key evs i)) = id := rfl
  rw [hcomp, List.map_id]

/-- A ranking-ordered list with pairwise-distinct entity ids is strictly
ranking-ordered. -/
theorem pairwise_strictRank_of_nodup :
    ∀ {l : List (String × Nat)}, l.Pairwise rankRel → (l.map Prod.fst).Nodup →
      l.Pairwise strictRankRel := by
  intro l
  induction l with
  | nil => intro _ _; exact List.Pairwise.nil
  | cons a t ih =>
    intro hp hn
    rcases List.pairwise_cons.mp hp with ⟨ha, ht⟩
    rcases List.nodup_cons.mp hn with ⟨hfst, hnt⟩
    refine List.pairwise_cons.mpr ⟨?_, ih ht hnt⟩
    intro b hb
    have hne : a.1 ≠ b.1 := fun h =>
      hfst (h ▸ List.mem_map_of_mem Prod.fst hb)
    rcases ha b hb with h | ⟨he, hi⟩
    · exact Or.inl h
    · exact Or.inr ⟨he, lt_of_le_of_ne hi hne⟩

theorem rankingList_pairwise (key : ListeningEvent → String)
    (evs : List ListeningEvent) (lb : Nat) :
    (rankingList key evs lb).Pairwise strictRankRel := by
  unfold rankingList
  set tbl := scoreTable key (evs.filter (fun e => lb ≤ e.timestamp)) with htbl
  have hsorted : (tbl.insertionSort rankRel).Pairwise rankRel :=
    List.sorted_insertionSort rankRel tbl
  have hnodup : ((tbl.insertionSort rankRel).map Prod.fst).Nodup := by
    have hperm := (List.perm_insertionSort rankRel tbl).map Prod.fst
    rw [hperm.nodup_iff, htbl, scoreTable_map_fst]
    exact List.nodup_dedup _
  exact (pairwise_strictRank_of_nodup hsorted hnodup).sublist
    (List.take_sublist rankingCap _)

theorem rankingList_length_le (key : ListeningEvent → String)
    (evs : List ListeningEvent) (lb : Nat) :
    (rankingList key evs lb).length ≤ rankingCap := by
  unfold rankingList
  exact List.length_take_le rankingCap _

/-- Claim C2.
For every input row set, horizon and entity kind, the produced ranking list
is pairwise ordered by strictly decreasing score with equal scores in
strictly ascending entity-id order, and has at most `rankingCap = 50`
entries. -/
theorem ranking_sorted_and_capped (rows : List RawRow) (kind : EntityKind) (h : Horizon) :
    (getRanking (buildSnapshot rows) kind h).Pairwise strictRankRel ∧
      (getRanking (buildSnapshot rows) kind h).length ≤ rankingCap := by
  cases kind <;> cases h <;>
    exact ⟨rankingList_pairwise _ _ _, rankingList_length_le _ _ _⟩

/-! ## Relationship-graph invariants (spec §3, §8; claim C3 machinery) -/

section GraphInv

variable {α : Type} [LinearOrder α]

theorem canonPair_comm (a b : α) : canonPair a b = canonPair b a := by
  unfold canonPair
  rcases lt_trichotomy a b with h | h | h
  · rw [if_pos h, if_neg (asymm h)]
  · subst h
    rw [if_neg (lt_irrefl a)]
  · rw [if_neg (asymm h), if_pos h]

theorem canonPair_strict {a b : α} (h : a ≠ b) :
    (canonPair a b).1 < (canonPair a b).2 := by
  unfold canonPair
  rcases lt_trichotomy a b with h' | h' | h'
  · rw [if_pos h']
    exact h'
  · exact absurd h' h
  · rw [if_neg (asymm h')]
    exact h'

/-- Every stored edge has a strictly canonical key and weight at least 1. -/
def edgesWellFormed (g : Graph α) : Prop :=
  ∀ e ∈ g, e.1.1 < e.1.2 ∧ 1 ≤ e.2

theorem bumpEdge_wf {g : Graph α} {k : α × α} (hg : edgesWellFormed g)
    (hk : k.1 < k.2) : edgesWellFormed (bumpEdge g k) := by
  induction g with
  | nil =>
    intro e he
    rcases List.mem_singleton.mp he with rfl
    exact ⟨hk, Nat.le_refl 1⟩
  | cons p t ih =>
    rcases p with ⟨k', w⟩
    unfold bumpEdge
    by_cases hkk : k' = k
    · rw [if_pos hkk]
      intro e he
      rcases List.mem_cons.mp he with rfl | he
      · exact ⟨(hg _ (List.mem_cons_self _ _)).1, Nat.le_add_left 1 w⟩
      · exact hg e (List.mem_cons_of_mem _ he)
    · rw [if_neg hkk]
      intro e he
      rcases List.mem_cons.mp he with rfl | he
      · exact hg _ (List.mem_cons_self _ _)
      · exact ih (fun e' he' => hg e' (List.mem_cons_of_mem _ he')) e he

theorem bumpEdge_map_fst (g : Graph α) (k : α × α) :
    (bumpEdge g k).map Prod.fst =
      if k ∈ g.map Prod.fst then g.map Prod.fst else g.map Prod.fst ++ [k] := by
  induction g with
  | nil => simp [bumpEdge]
  | cons p t ih =>
    rcases p with ⟨k', w⟩
    by_cases hkk : k' = k
    · subst hkk
      simp [bumpEdge]
    · simp only [bumpEdge, if_neg hkk, List.map_cons, ih]
      by_cases hmem : k ∈ t.map Prod.fst
      · rw [if_pos hmem, if_pos (List.mem_cons_of_mem _ hmem)]
      · rw [if_neg hmem, if_neg (by
          intro h
          rcases List.mem_cons.mp h with h | h
          · exact hkk h.symm
          · exact hmem h)]
        simp

theorem bumpEdge_nodup_fst {g : Graph α} {k : α × α}
    (hg : (g.map Prod.fst).Nodup) : ((bumpEdge g k).map Prod.fst).Nodup := by
  rw [bumpEdge_map_fst]
  by_cases hmem : k ∈ g.map Prod.fst
  · rw [if_pos hmem]
    exact hg
  · rw [if_neg hmem]
    exact List.Nodup.append hg (List.nodup_singleton k) (by
      intro x hx hx'
      rcases List.mem_singleton.mp hx' with rfl
      exact hmem hx)

/-- Both graph invariants bundled, as preserved by the builder. -/
def goodGraph (g : Graph α) : Prop :=
  edgesWellFormed g ∧ (g.map Prod.fst).Nodup

theorem foldl_bump_good {a : α} :
    ∀ (bs : List α) (g : Graph α), goodGraph g → (∀ b ∈ bs, b ≠ a) →
      goodGraph (bs.foldl (fun g' b => bumpEdge g' (canonPair a b)) g) := by
  intro bs
  induction bs with
  | nil => intro g hg _; exact hg
  | cons b t ih =>
    intro g hg hb
    have hba : b ≠ a := hb b (List.mem_cons_self _ _)
    have hk : (canonPair a b).1 < (canonPair a b).2 := canonPair_strict (Ne.symm hba)
    exact ih _ ⟨bumpEdge_wf hg.1 hk, bumpEdge_nodup_fst hg.2⟩
      (fun b' hb' => hb b' (List.mem_cons_of_mem _ hb'))

theorem graphStep_good (gw : Graph α × List α) (a : α) (hg : goodGraph gw.1) :
    goodGraph (graphStep gw a).1 := by
  unfold graphStep
  exact foldl_bump_good _ _ hg (by
    intro b hb
    simpa using (List.mem_filter.mp hb).2)

theorem foldl_graphStep_good :
    ∀ (ids : List α) (gw : Graph α × List α), goodGraph gw.1 →
      goodGraph (ids.foldl graphStep gw).1 := by
  intro ids
  induction ids with
  | nil => intro gw hg; exact hg
  | cons a t ih =>
    intro gw hg
    exact ih (graphStep gw a) (graphStep_good gw a hg)

theorem buildGraphIds_good (ids : List α) : goodGraph (buildGraphIds ids) :=
  foldl_graphStep_good ids ([], []) ⟨fun e he => absurd he (List.not_mem_nil e), List.nodup_nil⟩

theorem weightOf_comm (g : Graph α) (a b : α) : weightOf g a b = weightOf g b a := by
  unfold weightOf
  rw [canonPair_comm]

end GraphInv

/-- Claim C3.
For every input row set, the relationship graph stores each unordered artist
pair at most once and only in canonical form (every stored key satisfies
`fst < snd` and keys are pairwise distinct, so a pair is never stored under
both orientations), every stored weight is at least 1, and the weight of an
unordered pair is queried identically from either orientation, so it does
not depend on which artist of the pair appeared first. -/
theorem graph_canonical_and_symmetric (rows : List RawRow) :
    edgesWellFormed (buildSnapshot rows).artistRelationships ∧
      ((buildSnapshot rows).artistRelationships.map Prod.fst).Nodup ∧
      (∀ a b : String,
        weightOf (buildSnapshot rows).artistRelationships a b =
          weightOf (buildSnapshot rows).artistRelationships b a) := by
  have hgood : goodGraph (buildSnapshot rows).artistRelationships :=
    buildGraphIds_good _
  exact ⟨hgood.1, hgood.2, fun a b => weightOf_comm _ a b⟩

set_option maxRecDepth 100000 in
/-- Claim C4.
With window capacity W = 50, the sliding-window builder run on 60 sequential
plays alternating between two artists (here instantiated at numeric ids
0 and 1) produces a graph whose only edge is the canonical pair of the two
artists with weight exactly 59, and contains no self-edges. -/
theorem window_alternating_single_edge :
    windowCap = 50 ∧
      buildGraphIds ((List.range 60).map (fun i => i % 2)) = [((0, 1), 59)] ∧
      ∀ e ∈ buildGraphIds ((List.range 60).map (fun i => i % 2)), e.1.1 ≠ e.1.2 := by
  refine ⟨rfl, by decide, ?_⟩
  intro e he
  rw [show buildGraphIds ((List.range 60).map (fun i => i % 2)) = [((0, 1), 59)] from
    by decide] at he
  rcases List.mem_singleton.mp he with rfl
  decide

/-- Claim C7.
With window capacity W = 50, the sliding-window builder run on three
consecutive plays of three distinct artists A = 0, B = 1, C = 2 produces
exactly the three edges (A,B), (A,C), (B,C), each with weight 1. -/
theorem window_three_distinct_edges :
    windowCap = 50 ∧
      buildGraphIds [0, 1, 2] = [((0, 1), 1), ((0, 2), 1), ((1, 2), 1)] := by
  exact ⟨rfl, by decide⟩

/-! ## Snapshot store and reload semantics (spec §4.7, §7; claims C5, C6) -/

/-- Load failure taxonomy relevant to the reload path (spec §7):
no valid rows after parsing. -/
inductive LoadError where
  | emptyInput
deriving DecidableEq

/-- Modelled from the spec (§4.7 Snapshot Store): a reload over input with
zero valid rows leaves the published state (`none` = Empty, `some` = Ready)
unchanged and reports the failure; otherwise it builds a complete new
Snapshot and atomically replaces the published reference with it.  The
result is the pair (published state after the reload, returned outcome). -/
def reload (store : Option Snapshot) (rows : List RawRow) :
    Option Snapshot × Except LoadError Snapshot :=
  if validEvents rows = [] then (store, Except.error LoadError.emptyInput)
  else (some (buildSnapshot rows), Except.ok (buildSnapshot rows))

/-- Claim C5.
A reload over input yielding zero valid rows fails, returning the failure to
the caller, and leaves the previously published Snapshot unchanged; a reload
over valid input always replaces the prior published Snapshot with the new
fully-populated one; and in every case the published state is either the old
one or the complete new Snapshot, never anything partial. -/
theorem reload_semantics (store : Option Snapshot) (rows : List RawRow) :
    (validEvents rows = [] →
      reload store rows = (store, Except.error LoadError.emptyInput)) ∧
      (validEvents rows ≠ [] →
        reload store rows = (some (buildSnapshot rows), Except.ok (buildSnapshot rows))) ∧
      ((reload store rows).1 = store ∨
        (reload store rows).1 = some (buildSnapshot rows)) := by
  refine ⟨fun h => ?_, fun h => ?_, ?_⟩
  · unfold reload
    rw [if_pos h]
  · unfold reload
    rw [if_neg h]
  · unfold reload
    by_cases h : validEvents rows = []
    · rw [if_pos h]
      exact Or.inl rfl
    · rw [if_neg h]
      exact Or.inr rfl

/-- Witness for claim C5 at concrete inputs: a malformed-only reload keeps a
previously Ready store and errors; a valid reload over an Empty store
publishes the new Snapshot. -/
theorem reload_semantics_witness :
    reload (some (buildSnapshot [⟨some 100, "T", "A", 10, []⟩])) [⟨none, "T", "A", 10, []⟩] =
        (some (buildSnapshot [⟨some 100, "T", "A", 10, []⟩]),
          Except.error LoadError.emptyInput) ∧
      reload none [⟨some 100, "T", "A", 10, []⟩] =
        (some (buildSnapshot [⟨some 100, "T", "A", 10, []⟩]),
          Except.ok (buildSnapshot [⟨some 100, "T", "A", 10, []⟩])) :=
  ⟨(reload_semantics _ _).1 (by decide), (reload_semantics _ _).2.1 (by decide)⟩

/-- Claim C6.
A row that fails to parse (unparseable timestamp or negative `ms_played`) is
excluded from the converted events with exactly one additional per-row
warning, it never changes how the remaining well-formed rows convert, the
resulting Snapshot is as if the bad row were absent, and whenever at least
one valid row remains the overall load still succeeds. -/
theorem row_errors_skipped_not_fatal (pre post : List RawRow) (bad : RawRow)
    (hbad : parseRow bad = none) :
    validEvents (pre ++ bad :: post) = validEvents (pre ++ post) ∧
      parseWarnings (pre ++ bad :: post) = parseWarnings (pre ++ post) + 1 ∧
      buildSnapshot (pre ++ bad :: post) = buildSnapshot (pre ++ post) ∧
      (∀ store : Option Snapshot, validEvents (pre ++ post) ≠ [] →
        (reload store (pre ++ bad :: post)).2 =
          Except.ok (buildSnapshot (pre ++ post))) := by
  have hv : validEvents (pre ++ bad :: post) = validEvents (pre ++ post) := by
    unfold validEvents
    simp [List.filterMap_append, List.filterMap_cons, hbad]
  have hw : parseWarnings (pre ++ bad :: post) = parseWarnings (pre ++ post) + 1 := by
    unfold parseWarnings
    simp [List.countP_append, List.countP_cons, hbad]
    omega
  have hs : buildSnapshot (pre ++ bad :: post) = buildSnapshot (pre ++ post) := by
    unfold buildSnapshot
    rw [hv]
  refine ⟨hv, hw, hs, fun store hne => ?_⟩
  unfold reload
  rw [if_neg (by rw [hv]; exact hne), hs]

/-- Witness for claim C6 at a concrete input: with one malformed row between
two good ones, the load still succeeds and produces the Snapshot of the two
good rows. -/
theorem row_errors_skipped_not_fatal_witness :
    (reload none
        ([⟨some 5, "T", "A", 7, []⟩] ++ ⟨none, "T", "A", 7, []⟩ :: [⟨some 9, "U", "B", 3, []⟩])).2 =
      Except.ok (buildSnapshot ([⟨some 5, "T", "A", 7, []⟩] ++ [⟨some 9, "U", "B", 3, []⟩])) :=
  (row_errors_skipped_not_fatal [⟨some 5, "T", "A", 7, []⟩] [⟨some 9, "U", "B", 3, []⟩]
      ⟨none, "T", "A", 7, []⟩ (by decide)).2.2.2 none (by decide)

/-! ## The csv-to-json converter (`scripts/csv-to-json.js`; claim C8) -/

/-- A parsed CSV row as the csv-parser library delivers it to the data
handler of `scripts/csv-to-json.js`: each column the handler reads is either
present (`some`) or absent (`none`, the JS `undefined`). -/
structure CsvParserRow where
  ts : Option String
  endTime : Option String
  trackNameCap : Option String
  trackName : Option String
  artistNames : Option String
  artistName : Option String
  ms_played : Option String
  msPlayed : Option String
  albumNameCap : Option String
  albumName : Option String
  albumArtUrl : Option String
  trackId : Option String
  artistId : Option String
  genresCol : Option String
  artistGenres : Option String
deriving DecidableEq

/-- JS truthiness of a possibly-undefined string value: `undefined` and the
empty string are falsy. -/
def jsTruthy : Option String → Bool
  | none => false
  | some s => s ≠ ""

/-- The JS expression `a || b || ""` over possibly-undefined strings. -/
def firstTruthy (a b : Option String) : String :=
  if jsTruthy a then a.getD "" else if jsTruthy b then b.getD "" else ""

/-- JS whitespace class used by `String.prototype.trim`. -/
def jsWs (c : Char) : Bool := c.isWhitespace

/-- Drop the trailing characters satisfying `p`. -/
def dropTail (p : Char → Bool) : List Char → List Char
  | [] => []
  | a :: t =>
    match dropTail p t with
    | [] => if p a then [] else [a]
    | b :: r => a :: b :: r

/-- The JS `String.prototype.trim`: strip leading and trailing whitespace. -/
def jsTrim (s : String) : String :=
  ⟨dropTail jsWs (s.data.dropWhile jsWs)⟩

/-- The JS `String.prototype.split(",")` on the character list: comma-free
segments between commas, keeping empty segments. -/
def splitCommaChars : List Char → List (List Char)
  | [] => [[]]
  | c :: t =>
    if c = ',' then [] :: splitCommaChars t
    else
      match splitCommaChars t with
      | [] => [[c]]
      | h :: r => (c :: h) :: r

/-- The JS `s.split(",")`. -/
def jsSplitComma (s : String) : List String :=
  (splitCommaChars s.data).map (fun l => ⟨l⟩)

/-- The genres mapping of `scripts/csv-to-json.js`:
`(data["Genres"] || data["Artist Genres"] || "").split(",").map(trim).filter(Boolean)`. -/
def jsGenres (g ga : Option String) : List String :=
  ((jsSplitComma (firstTruthy g ga)).map jsTrim).filter (fun s => s ≠ "")

/-- Result of the JS `Number()` conversion: a number or the NaN marker. -/
inductive JsNum where
  | num (n : Int)
  | nan
deriving DecidableEq

/-- Model of the JS `Number()` conversion on the integral inputs the dataset
uses: a whitespace-trimmed optionally-signed decimal integer maps to its
value, the empty (or all-whitespace) string maps to 0, anything else maps to
the NaN marker (fractional results are collapsed into the NaN marker; no
claim exercises them and floating point is outside this model). -/
def jsNumber (s : String) : JsNum :=
  let t := jsTrim s
  if t = "" then JsNum.num 0
  else
    match t.toInt? with
    | some n => JsNum.num n
    | none => JsNum.nan

/-- Model of the JS expression Number(a || b || 0), whose final fallback is
the number 0. -/
def jsNumberField (a b : Option String) : JsNum :=
  if jsTruthy a then jsNumber (a.getD "")
  else if jsTruthy b then jsNumber (b.getD "")
  else JsNum.num 0

/-- One output record of `scripts/csv-to-json.js`. -/
structure OutRecord where
  ts : String
  track_name : String
  artist_name : String
  ms_played : JsNum
  album_name : String
  album_art_url : String
  track_id : String
  artist_id : String
  genres : List String
deriving DecidableEq

/-- The per-row mapping of the `.on("data", ...)` handler in
`scripts/csv-to-json.js`: exactly one record pushed per row. -/
def convertRow (d : CsvParserRow) : OutRecord :=
  { ts := firstTruthy d.ts d.endTime
    track_name := firstTruthy d.trackNameCap d.trackName
    artist_name := firstTruthy d.artistNames d.artistName
    ms_played := jsNumberField d.ms_played d.msPlayed
    album_name := firstTruthy d.albumNameCap d.albumName
    album_art_url := firstTruthy d.albumArtUrl none
    track_id := firstTruthy d.trackId none
    artist_id := firstTruthy d.artistId none
    genres := jsGenres d.genresCol d.artistGenres }

/-- The whole conversion: one output record per input row. -/
def convertRows (rows : List CsvParserRow) : List OutRecord :=
  rows.map convertRow

theorem dropTail_idem (p : Char → Bool) :
    ∀ l : List Char, dropTail p (dropTail p l) = dropTail p l := by
  intro l
  induction l with
  | nil => rfl
  | cons a t ih =>
    cases hd : dropTail p t with
    | nil =>
      by_cases hp : p a = true
      · simp [dropTail, hd, hp]
      · simp [dropTail, hd, hp]
    | cons b r =>
      rw [hd] at ih
      have e0 : dropTail p (a :: t) = a :: b :: r := by
        simp [dropTail, hd]
      rw [e0]
      have e1 : dropTail p (a :: b :: r) =
          match dropTail p (b :: r) with
          | [] => if p a = true then [] else [a]
          | c :: r' => a :: c :: r' := rfl
      rw [e1, ih]

theorem dropTail_head (p : Char → Bool) (a : Char) (t : List Char) :
    dropTail p (a :: t) = [] ∨ ∃ r, dropTail p (a :: t) = a :: r := by
  unfold dropTail
  cases dropTail p t with
  | nil =>
    by_cases hp : p a = true
    · rw [if_pos hp]
      exact Or.inl rfl
    · rw [if_neg hp]
      exact Or.inr ⟨[], rfl⟩
  | cons b r => exact Or.inr ⟨b :: r, rfl⟩

theorem dropWhile_head_false (p : Char → Bool) :
    ∀ (l : List Char) (a : Char) (r : List Char), l.dropWhile p = a :: r → p a = false := by
  intro l
  induction l with
  | nil => intro a r h; exact absurd h (by simp)
  | cons b t ih =>
    intro a r h
    by_cases hp : p b = true
    · rw [List.dropWhile_cons, if_pos hp] at h
      exact ih a r h
    · rw [List.dropWhile_cons, if_neg hp] at h
      rcases List.cons.injEq .. ▸ h with ⟨rfl, _⟩
      exact Bool.not_eq_true _ ▸ hp

/-- Trimming is idempotent. -/
theorem jsTrim_idem (s : String) : jsTrim (jsTrim s) = jsTrim s := by
  unfold jsTrim
  rcases hm : (s.data.dropWhile jsWs) with _ | ⟨a, m'⟩
  · simp [dropTail]
  · rcases dropTail_head jsWs a m' with hnil | ⟨r, hr⟩
    · rw [hnil]
      simp [dropTail]
    · rw [hr]
      have ha : jsWs a = false := dropWhile_head_false jsWs s.data a m' hm
      show (⟨dropTail jsWs ((a :: r).dropWhile jsWs)⟩ : String) = ⟨a :: r⟩
      rw [List.dropWhile_cons, if_neg (by rw [ha]; exact Bool.false_ne_true)]
      rw [← hr, dropTail_idem, hr]

/-- Claim C8.
The converter emits exactly one output record per input row; the genres
field is computed from the "Genres" column when it is truthy and otherwise
from the "Artist Genres" column, never a union of both; and every element of
the output genres array is a non-empty, fully-trimmed (hence not
whitespace-only) string. -/
theorem converter_one_record_genres (rows : List CsvParserRow) :
    (convertRows rows).length = rows.length ∧
      (∀ d : CsvParserRow, (convertRow d).genres = jsGenres d.genresCol d.artistGenres) ∧
      (∀ g ga ga' : Option String, jsTruthy g = true → jsGenres g ga = jsGenres g ga') ∧
      (∀ g ga : Option String, jsTruthy g = false → jsGenres g ga = jsGenres none ga) ∧
      (∀ (d : CsvParserRow) (s : String),
        s ∈ (convertRow d).genres → s ≠ "" ∧ jsTrim s = s) := by
  refine ⟨List.length_map rows convertRow, fun d => rfl, ?_, ?_, ?_⟩
  · intro g ga ga' hg
    unfold jsGenres firstTruthy
    rw [if_pos hg, if_pos hg]
  · intro g ga hg
    unfold jsGenres firstTruthy
    rw [if_neg (by rw [hg]; exact Bool.false_ne_true)]
    rfl
  · intro d s hs
    have hs' : s ∈ ((jsSplitComma (firstTruthy d.genresCol d.artistGenres)).map jsTrim).filter
        (fun s => s ≠ "") := hs
    rcases List.mem_filter.mp hs' with ⟨hmem, hne⟩
    have hne' : s ≠ "" := by
      simpa using hne
    rcases List.mem_map.mp hmem with ⟨x, _, hx⟩
    exact ⟨hne', by rw [← hx, jsTrim_idem]⟩

/-- Witness for claim C8 at concrete inputs: with a truthy "Genres" column
the "Artist Genres" column is ignored, and the element "rock" of a concrete
output is non-empty and fully trimmed. -/
theorem converter_one_record_genres_witness :
    jsGenres (some "rock, pop") (some "ignored") = jsGenres (some "rock, pop") none ∧
      ("rock" ≠ "" ∧ jsTrim "rock" = "rock") :=
  ⟨(converter_one_record_genres []).2.2.1 (some "rock, pop") (some "ignored") none
      (by decide),
    (converter_one_record_genres []).2.2.2.2
      ⟨none, none, none, none, none, none, none, none, none, none, none, none, none,
        some "rock, pop", none⟩ "rock" (by decide)⟩

/-! ## The WasmClient and the committed engine shim
(`frontend/src/musicGalaxy/WasmClient/engine.ts`, which re-exports the
`engine.stub` module, and the `WasmClient` class; claim C9).  Engine calls
are modelled in an error monad: a JS throw is `Except.error` carrying the
message.  Binary payload arguments (typed arrays, positions) are elided
because every claim under verification exercises only the initialization
guard, which never reaches them. -/

/-- The message thrown by every export of `engine.stub.ts`. -/
def stubMessage : String :=
  "WASM engine module not available. Music Galaxy feature requires the Rust WASM module to be built."

/-- The message thrown by the initialization guard of `WasmClient`. -/
def notInitializedMessage : String := "WASM engine not initialized"

/-- The surface of the engine module as consumed by `WasmClient`: each
export takes the context pointer (or nothing, for `create_artist_map_ctx`
and `get_memory`) and may throw. -/
structure EngineModule where
  create_artist_map_ctx : Unit → Except String Nat
  decode_and_record_packed_artist_positions : Nat → Except String Unit
  get_all_artist_data : Nat → Except String (List Nat)
  handle_new_position : Nat → Except String (List Nat)
  handle_received_artist_names : Nat → Except String (List Nat)
  on_music_finished_playing : Nat → Except String (List Nat)
  get_connections_buffer_ptr : Nat → Except String Nat
  get_connections_buffer_length : Nat → Except String Nat
  get_memory : Unit → Except String (List Nat)
  get_connections_color_buffer_ptr : Nat → Except String Nat
  get_connections_color_buffer_length : Nat → Except String Nat
  handle_artist_relationship_data : Nat → Except String Unit
  handle_set_highlighted_artists : Nat → Except String (List Nat)
  handle_artist_manual_play : Nat → Except String (List Nat)
  get_connections_for_artists : Nat → Bool → Except String (List Nat)
  transition_to_orbit_mode : Nat → Except String (List Nat)
  force_render_artist_label : Nat → Except String (List Nat)
  set_quality : Nat → Except String Unit
  play_last_artist : Nat → Except String (List Nat)
  get_artist_colors_buffer_ptr : Nat → Except String Nat
  get_artist_colors_buffer_length : Nat → Except String Nat

/-- The stub engine module: every exported function is `stubError`, which
throws.  The committed `engine.ts` shim re-exports exactly this module. -/
def engineStub : EngineModule where
  create_artist_map_ctx := fun _ => Except.error stubMessage
  decode_and_record_packed_artist_positions := fun _ => Except.error stubMessage
  get_all_artist_data := fun _ => Except.error stubMessage
  handle_new_position := fun _ => Except.error stubMessage
  handle_received_artist_names := fun _ => Except.error stubMessage
  on_music_finished_playing := fun _ => Except.error stubMessage
  get_connections_buffer_ptr := fun _ => Except.error stubMessage
  get_connections_buffer_length := fun _ => Except.error stubMessage
  get_memory := fun _ => Except.error stubMessage
  get_connections_color_buffer_ptr := fun _ => Except.error stubMessage
  get_connections_color_buffer_length := fun _ => Except.error stubMessage
  handle_artist_relationship_data := fun _ => Except.error stubMessage
  handle_set_highlighted_artists := fun _ => Except.error stubMessage
  handle_artist_manual_play := fun _ => Except.error stubMessage
  get_connections_for_artists := fun _ _ => Except.error stubMessage
  transition_to_orbit_mode := fun _ => Except.error stubMessage
  force_render_artist_label := fun _ => Except.error stubMessage
  set_quality := fun _ => Except.error stubMessage
  play_last_artist := fun _ => Except.error stubMessage
  get_artist_colors_buffer_ptr := fun _ => Except.error stubMessage
  get_artist_colors_buffer_length := fun _ => Except.error stubMessage

/-- The fields of a `WasmClient` after construction. -/
structure WasmClientState where
  engine : Option EngineModule
  ctxPtr : Option Nat
  initError : Option String

/-- The `WasmClient` constructor once the dynamic import of the shim has
resolved: `create_artist_map_ctx` is attempted; when it throws, `ctxPtr` is
never assigned (stays null) and the error is recorded in `initError`. -/
def initClient (m : EngineModule) : WasmClientState :=
  match m.create_artist_map_ctx () with
  | Except.ok p => { engine := some m, ctxPtr := some p, initError := none }
  | Except.error e => { engine := some m, ctxPtr := none, initError := some e }

/-- JS truthiness of the nullable numeric `ctxPtr`: null and 0 are falsy. -/
def ctxTruthy (c : WasmClientState) : Bool :=
  match c.ctxPtr with
  | none => false
  | some n => n ≠ 0

/-- The method isReady: `!!this.engine && !!this.ctxPtr && !this.initError`. -/
def isReady (c : WasmClientState) : Bool :=
  c.engine.isSome && ctxTruthy c && c.initError.isNone

/-- The guard `if (!this.engine || !this.ctxPtr) throw new Error("WASM
engine not initialized")` shared by `ensureInitialized` and the inline
checks, yielding the non-null engine and pointer on success. -/
def requireEngine (c : WasmClientState) : Except String (EngineModule × Nat) :=
  match c.engine, c.ctxPtr with
  | some m, some p =>
    if p = 0 then Except.error notInitializedMessage else Except.ok (m, p)
  | _, _ => Except.error notInitializedMessage

/-- The method getArtistColorsByID: guard, then read the colors buffer (the
float/uint reinterpretation of the buffer is abstracted to the raw words). -/
def getArtistColorsByID (c : WasmClientState) : Except String (List Nat) := do
  let (m, p) ← requireEngine c
  let _ ← m.get_artist_colors_buffer_ptr p
  let _ ← m.get_artist_colors_buffer_length p
  m.get_memory ()

/-- The method decodeAndRecordPackedArtistPositions: guard (inline), engine call,
then `getArtistColorsByID`. -/
def decodeAndRecordPackedArtistPositions (c : WasmClientState) :
    Except String (List Nat) := do
  let (m, p) ← requireEngine c
  let _ ← m.decode_and_record_packed_artist_positions p
  getArtistColorsByID c

/-- The method getAllArtistData: guard (inline), then engine call. -/
def getAllArtistData (c : WasmClientState) : Except String (List Nat) := do
  let (m, p) ← requireEngine c
  m.get_all_artist_data p

/-- The method handleNewPosition: `ensureInitialized`, then engine call. -/
def handleNewPosition (c : WasmClientState) : Except String (List Nat) := do
  let (m, p) ← requireEngine c
  m.handle_new_position p

/-- The method handleReceivedArtistNames: `ensureInitialized`, then engine call. -/
def handleReceivedArtistNames (c : WasmClientState) : Except String (List Nat) := do
  let (m, p) ← requireEngine c
  m.handle_received_artist_names p

/-- The method onMusicFinishedPlaying: `ensureInitialized`, then engine call. -/
def onMusicFinishedPlaying (c : WasmClientState) : Except String (List Nat) := do
  let (m, p) ← requireEngine c
  m.on_music_finished_playing p

/-- The private `getConnectionsBuffer`. -/
def getConnectionsBuffer (c : WasmClientState) : Except String (List Nat) := do
  let (m, p) ← requireEngine c
  let _ ← m.get_connections_buffer_ptr p
  let _ ← m.get_connections_buffer_length p
  m.get_memory ()

/-- The private `getConnectionsColorBuffer`. -/
def getConnectionsColorBuffer (c : WasmClientState) : Except String (List Nat) := do
  let (m, p) ← requireEngine c
  let _ ← m.get_connections_color_buffer_ptr p
  let _ ← m.get_connections_color_buffer_length p
  m.get_memory ()

/-- The method handleArtistRelationshipData: `ensureInitialized`, engine call, then
both connection buffers. -/
def handleArtistRelationshipData (c : WasmClientState) :
    Except String (List Nat × List Nat) := do
  let (m, p) ← requireEngine c
  let _ ← m.handle_artist_relationship_data p
  let cb ← getConnectionsBuffer c
  let ccb ← getConnectionsColorBuffer c
  pure (cb, ccb)

/-- The method setHighlightedArtists: `ensureInitialized`, then engine call. -/
def setHighlightedArtists (c : WasmClientState) : Except String (List Nat) := do
  let (m, p) ← requireEngine c
  m.handle_set_highlighted_artists p

/-- The method handleArtistManualPlay: `ensureInitialized`, then engine call. -/
def handleArtistManualPlay (c : WasmClientState) : Except String (List Nat) := do
  let (m, p) ← requireEngine c
  m.handle_artist_manual_play p

/-- The method getHighlightedConnectionsBackbone: `ensureInitialized`, then the
intra and inter connection queries. -/
def getHighlightedConnectionsBackbone (c : WasmClientState) :
    Except String (List Nat × List Nat) := do
  let (m, p) ← requireEngine c
  let intra ← m.get_connections_for_artists p true
  let inter ← m.get_connections_for_artists p false
  pure (intra, inter)

/-- The method transitionToOrbitMode: `ensureInitialized`, then engine call. -/
def transitionToOrbitMode (c : WasmClientState) : Except String (List Nat) := do
  let (m, p) ← requireEngine c
  m.transition_to_orbit_mode p

/-- The method forceRenderArtistLabel: `ensureInitialized`, then engine call. -/
def forceRenderArtistLabel (c : WasmClientState) : Except String (List Nat) := do
  let (m, p) ← requireEngine c
  m.force_render_artist_label p

/-- The method setQuality: `ensureInitialized`, engine call, then both connection
buffers. -/
def setQuality (c : WasmClientState) : Except String (List Nat × List Nat) := do
  let (m, p) ← requireEngine c
  let _ ← m.set_quality p
  let cb ← getConnectionsBuffer c
  let ccb ← getConnectionsColorBuffer c
  pure (cb, ccb)

/-- The method playLastArtist: `ensureInitialized`, then engine call. -/
def playLastArtist (c : WasmClientState) : Except String (List Nat) := do
  let (m, p) ← requireEngine c
  m.play_last_artist p

/-- Claim C9.
With the committed engine.ts shim (re-exporting the stub whose every export
throws), construction has `create_artist_map_ctx` throw, so `ctxPtr` stays
null and the stub error is recorded; `isReady()` is false; and every other
public method of `WasmClient` throws "WASM engine not initialized". -/
theorem wasm_stub_client_uninitialized :
    engineStub.create_artist_map_ctx () = Except.error stubMessage ∧
      (initClient engineStub).ctxPtr = none ∧
      (initClient engineStub).initError = some stubMessage ∧
      isReady (initClient engineStub) = false ∧
      decodeAndRecordPackedArtistPositions (initClient engineStub) =
        Except.error notInitializedMessage ∧
      getAllArtistData (initClient engineStub) = Except.error notInitializedMessage ∧
      handleNewPosition (initClient engineStub) = Except.error notInitializedMessage ∧
      handleReceivedArtistNames (initClient engineStub) =
        Except.error notInitializedMessage ∧
      onMusicFinishedPlaying (initClient engineStub) = Except.error notInitializedMessage ∧
      handleArtistRelationshipData (initClient engineStub) =
        Except.error notInitializedMessage ∧
      setHighlightedArtists (initClient engineStub) = Except.error notInitializedMessage ∧
      handleArtistManualPlay (initClient engineStub) = Except.error notInitializedMessage ∧
      getHighlightedConnectionsBackbone (initClient engineStub) =
        Except.error notInitializedMessage ∧
      transitionToOrbitMode (initClient engineStub) = Except.error notInitializedMessage ∧
      forceRenderArtistLabel (initClient engineStub) = Except.error notInitializedMessage ∧
      setQuality (initClient engineStub) = Except.error notInitializedMessage ∧
      playLastArtist (initClient engineStub) = Except.error notInitializedMessage ∧
      getArtistColorsByID (initClient engineStub) = Except.error notInitializedMessage :=
  ⟨rfl, rfl, rfl, rfl, rfl, rfl, rfl, rfl, rfl, rfl, rfl, rfl, rfl, rfl, rfl, rfl, rfl,
    rfl⟩

/-! ## The xlsx-to-json converter (`scripts/xlsx-to-json.js`; claim C10) -/

/-- One JSON row of a sheet as produced by `sheet_to_json` with
`defval: null`: header names mapped to cell text or null. -/
abbrev SheetRow := List (String × Option String)

/-- A workbook as read by `xlsx.readFile`: the sheets in `SheetNames`
order, each with the result of its JSON conversion (a conversion step may
throw). -/
abbrev Workbook := List (String × Except String (List SheetRow))

/-- The environment `scripts/xlsx-to-json.js` runs against: the full
`process.argv` (node executable and script path included, so two user
arguments mean length 4), whether the input file exists, the outcome of
reading the workbook, and the outcome of the directory-creation/write
step. -/
structure XlsxWorld where
  argv : List String
  inputExists : Bool
  readResult : Except String Workbook
  writeResult : Except String Unit

/-- The script `scripts/xlsx-to-json.js` top to bottom: usage check (`fail` with code 2),
input-existence check (code 2), read the workbook, take the first sheet name
(falsy means `fail` with code 3), convert it, write the output; any throw is
caught and exits with code 3, and only the final success path exits 0.
Returns the exit code and the rows written, when any. -/
def xlsxMain (w : XlsxWorld) : Nat × Option (List SheetRow) :=
  if w.argv.length < 4 then (2, none)
  else if w.inputExists = false then (2, none)
  else
    match w.readResult with
    | Except.error _ => (3, none)
    | Except.ok wb =>
      match wb with
      | [] => (3, none)
      | (name, conv) :: _ =>
        if name = "" then (3, none)
        else
          match conv with
          | Except.error _ => (3, none)
          | Except.ok rows =>
            match w.writeResult with
            | Except.error _ => (3, none)
            | Except.ok _ => (0, some rows)

/-- Claim C10.
The xlsx-to-json converter exits 2 when fewer than two user command-line
arguments are supplied (process.argv shorter than 4) or the input file does
not exist; it exits 3 when the workbook has no sheets or any
read/convert/write step throws; it exits 0 only on the success path, after
writing the JSON rows of the first sheet; and on the all-good path it does
exit 0 with exactly those rows. -/
theorem xlsx_exit_codes (w : XlsxWorld) :
    (w.argv.length < 4 → xlsxMain w = (2, none)) ∧
      (w.inputExists = false → xlsxMain w = (2, none)) ∧
      (∀ e, w.readResult = Except.error e → 4 ≤ w.argv.length → w.inputExists = true →
        xlsxMain w = (3, none)) ∧
      (w.readResult = Except.ok [] → 4 ≤ w.argv.length → w.inputExists = true →
        xlsxMain w = (3, none)) ∧
      (∀ name e rest, w.readResult = Except.ok ((name, Except.error e) :: rest) →
        4 ≤ w.argv.length → w.inputExists = true → xlsxMain w = (3, none)) ∧
      (∀ name rows rest e, w.readResult = Except.ok ((name, Except.ok rows) :: rest) →
        w.writeResult = Except.error e → 4 ≤ w.argv.length → w.inputExists = true →
        xlsxMain w = (3, none)) ∧
      ((xlsxMain w).1 = 0 →
        w.writeResult = Except.ok () ∧
          ∃ name rows rest, w.readResult = Except.ok ((name, Except.ok rows) :: rest) ∧
            name ≠ "" ∧ (xlsxMain w).2 = some rows) ∧
      (∀ name rows rest, w.readResult = Except.ok ((name, Except.ok rows) :: rest) →
        name ≠ "" → w.writeResult = Except.ok () → 4 ≤ w.argv.length →
        w.inputExists = true → xlsxMain w = (0, some rows)) := by
  rcases w with ⟨argv, inputExists, readResult, writeResult⟩
  refine ⟨?_, ?_, ?_, ?_, ?_, ?_, ?_, ?_⟩
  · intro h
    simp [xlsxMain, h]
  · intro h
    subst h
    by_cases h4 : argv.length < 4
    · simp [xlsxMain, h4]
    · simp [xlsxMain, h4]
  · intro e hr h4 hex
    subst hr
    subst hex
    simp [xlsxMain, Nat.not_lt.mpr h4]
  · intro hr h4 hex
    subst hr
    subst hex
    simp [xlsxMain, Nat.not_lt.mpr h4]
  · intro name e rest hr h4 hex
    subst hr
    subst hex
    by_cases hname : name = ""
    · simp [xlsxMain, Nat.not_lt.mpr h4, hname]
    · simp [xlsxMain, Nat.not_lt.mpr h4, hname]
  · intro name rows rest e hr hw h4 hex
    subst hr
    subst hw
    subst hex
    by_cases hname : name = ""
    · simp [xlsxMain, Nat.not_lt.mpr h4, hname]
    · simp [xlsxMain, Nat.not_lt.mpr h4, hname]
  · intro h0
    by_cases h4 : argv.length < 4
    · simp [xlsxMain, h4] at h0
    · by_cases hex : inputExists = false
      · simp [xlsxMain, h4, hex] at h0
      · rcases readResult with e | wb
        · simp [xlsxMain, h4, hex] at h0
        · rcases wb with _ | ⟨⟨name, conv⟩, rest⟩
          · simp [xlsxMain, h4, hex] at h0
          · by_cases hname : name = ""
            · simp [xlsxMain, h4, hex, hname] at h0
            · rcases conv with e | rows
              · simp [xlsxMain, h4, hex, hname] at h0
              · rcases writeResult with e | u
                · simp [xlsxMain, h4, hex, hname] at h0
                · exact ⟨rfl, name, rows, rest, rfl, hname, by
                    simp [xlsxMain, h4, hex, hname]⟩
  · intro name rows rest hr hname hw h4 hex
    subst hr
    subst hw
    subst hex
    simp [xlsxMain, Nat.not_lt.mpr h4, hname]

/-- Witness for claim C10 at concrete worlds: a single-argument invocation
exits 2; an all-good invocation exits 0 with the rows of the first sheet. -/
theorem xlsx_exit_codes_witness :
    xlsxMain ⟨["node", "xlsx-to-json.js", "in.xlsx"], true,
        Except.ok [("Sheet1", Except.ok [])], Except.ok ()⟩ = (2, none) ∧
      xlsxMain ⟨["node", "xlsx-to-json.js", "in.xlsx", "out.json"], true,
          Except.ok [("Sheet1", Except.ok [[("a", some "1")]])], Except.ok ()⟩ =
        (0, some [[("a", some "1")]]) :=
  ⟨(xlsx_exit_codes _).1 (by decide),
    (xlsx_exit_codes _).2.2.2.2.2.2.2 "Sheet1" [[("a", some "1")]] [] rfl (by decide) rfl
      (by decide) rfl⟩

end Spotifytrack
